import Mathlib

/-!
# Timeline compositor of `ui/renderfunctions.cpp`

A shallow embedding of `draw_clip`, `process_effect`, `compose_sequence` and
`compose_audio`, followed by theorems about them.

Modelling conventions.

* Pointers to sequences are sequence ids (`Nat`), resolved through a total
  project map `Nat → Sequence`; a null `Media*` is `none`.
* `long` and `int` values are unbounded `Int`: frame numbers stay far inside
  the machine range and signed overflow is undefined in C++.
* `double` and `float` values are exact rationals.
* Calls into collaborators whose bodies live in other translation units
  (`is_clip_active`, `refactor_frame_number`, `get_timecode`, `open_clip`, ...)
  are either fields of `Env` (when they return a value that the control flow
  reads) or entries of the event trace (when they only act on the outside
  world).
* OpenGL matrix, viewport and blend state, the contents of `GLTextureCoords`
  and the gizmo selection are never read back by the control flow and are not
  part of the state; render-target writes, `glScalef` and the final quad are
  trace events.
-/

namespace Olive

/-! ## Data model -/

/-- Footage fields read by the compositor; the two lists hold the file
indices of the video and of the audio streams. -/
structure Footage where
  invalid : Bool
  ready : Bool
  video_tracks : List Int
  audio_tracks : List Int
deriving DecidableEq, Repr

/-- Modelled from the spec: `streamForIndex(isVideo, index) -> Stream|null`
(the body of `Footage::get_stream_from_file_index` is not in this file);
`true` stands for a non-null stream. -/
def Footage.get_stream_from_file_index (m : Footage) (video : Bool) (index : Int) : Bool :=
  if video then decide (index ∈ m.video_tracks) else decide (index ∈ m.audio_tracks)

/-- What a non-null `Media*` points to. -/
inductive Media where
  | footage (m : Footage)
  | sequence (id : Nat)
deriving DecidableEq, Repr

/-- The `data` argument of `process_effect`. -/
inductive TransitionArg where
  | TA_NO_TRANSITION
  | TA_OPENING_TRANSITION
  | TA_CLOSING_TRANSITION
deriving DecidableEq, Repr

/-- An effect: `id` is the identity of the object, `rows` holds the field count
of each row. -/
structure Effect where
  id : Nat
  is_enabled : Bool
  enable_coords : Bool
  enable_shader : Bool
  enable_superimpose : Bool
  is_glsl_linked : Bool
  rows : List Nat
deriving DecidableEq, Repr

/-- A transition is an effect with a length (`get_length()`). -/
structure Transition where
  effect : Effect
  length : Int
deriving DecidableEq, Repr

/-- The two render targets of a clip: their textures and the handle of the first. -/
structure FboPair where
  texture0 : Nat
  texture1 : Nat
  handle0 : Nat
deriving DecidableEq, Repr

/-- Texture of `fbo[i]`, the index being a `bool` as in the source. -/
def FboPair.texture (f : FboPair) (i : Bool) : Nat :=
  if i then f.texture1 else f.texture0

/-- A clip. The `*_with_transition` fields are the values of the getters of
the same name; `width` and `height` are `getWidth()` and `getHeight()`;
`texture` is the id of the decode texture when it exists. -/
structure Clip where
  sequence : Nat
  media : Option Media
  media_stream : Int
  track : Int
  timeline_in : Int
  clip_in : Int
  timeline_in_with_transition : Int
  timeline_out_with_transition : Int
  clip_in_with_transition : Int
  is_open : Bool
  finished_opening : Bool
  autoscale : Bool
  width : Int
  height : Int
  effects : List Effect
  opening_transition : Option Transition
  closing_transition : Option Transition
  fbo : Option FboPair
  texture : Option Nat
  audio_reset : Bool
deriving DecidableEq, Repr

/-- A sequence; `clips` may hold null entries. -/
structure Sequence where
  clips : List (Option Clip)
  width : Int
  height : Int
  frame_rate : ℚ
  playhead : Int
deriving DecidableEq

/-- `ComposeSequenceParams`, without the GL context, the blend program and
the gizmo pointer. -/
structure ComposeSequenceParams where
  viewer : Option Nat
  seq : Nat
  nests : List Clip
  video : Bool
  render_audio : Bool
  rendering : Bool
  playback_speed : Int
  main_buffer : Nat
  texture_failed : Bool
deriving DecidableEq

/-- Calls that act on the outside world, in the order they are made. -/
inductive Event where
  | open_clip (c : Clip) (multithreaded : Bool)
  | close_clip (c : Clip)
  | clear_fbo (handle : Nat)
  | create_texture (c : Clip)
  | get_clip_frame (c : Clip) (frame : Int)
  | alloc_fbo (c : Clip)
  | process_effect (e : Effect) (timecode : ℚ) (data : TransitionArg)
  | process_coords (e : Effect) (timecode : ℚ) (data : TransitionArg)
  | startEffect (e : Effect)
  | process_shader (e : Effect) (timecode : ℚ)
  | draw_clip (fbo : FboPair) (index : Bool) (texture : Nat) (clear : Bool)
  | endEffect (e : Effect)
  | glScalef (x : ℚ) (y : ℚ)
  | final_draw (c : Clip) (texture : Nat) (final_fbo : Nat)
  | cache_clip (c : Clip) (playhead : Int) (reset : Bool) (scrubbing : Bool)
      (nests : List Clip) (speed : Int)
  | validate_keyframe_data (e : Effect) (row : Nat) (field : Nat) (ts : ℚ)
  | play_wake
deriving DecidableEq

/-- Globals and collaborators defined outside `renderfunctions.cpp`.
`get_clip_frame c frame b` is the value of the by-reference flag after the
call when it was `b` before; `new_texture` and `new_fbo` give the ids of
freshly created GL objects; `try_lock` is the result of `c->lock.tryLock()`. -/
structure Env where
  project : Nat → Sequence
  shaders_are_enabled : Bool
  is_audio_device_set : Bool
  enable_audio_scrubbing : Bool
  audio_scrub : Bool
  audio_rendering : Bool
  is_clip_active : Clip → Int → Bool
  refactor_frame_number : Int → ℚ → ℚ → Int
  get_timecode : Clip → Int → ℚ
  process_superimpose : Effect → ℚ → Nat
  get_clip_frame : Clip → Int → Bool → Bool
  new_texture : Clip → Nat
  new_fbo : Clip → FboPair
  try_lock : Clip → Bool

/-! ## `draw_clip` and `process_effect` -/

/-- The by-reference arguments of `process_effect`, with the trace. -/
structure EffectState where
  composite_texture : Nat
  fbo_switcher : Bool
  texture_failed : Bool
  trace : List Event
deriving DecidableEq

/-- Appends one event. -/
def EffectState.emit (st : EffectState) (ev : Event) : EffectState :=
  { st with trace := st.trace ++ [ev] }

/-- `draw_clip(fbo[index], texture, clear)`: draws `texture` into the target
and returns the texture of the target. -/
def draw_clip (fbo : FboPair) (index : Bool) (texture : Nat) (clear : Bool)
    (trace : List Event) : Nat × List Event :=
  (fbo.texture index, trace ++ [Event.draw_clip fbo index texture clear])

/-- The shader stage of `process_effect` (lines 74-78). -/
def shader_stage (fbo : FboPair) (e : Effect) (timecode : ℚ) (st : EffectState) : EffectState :=
  let st1 := st.emit (Event.process_shader e timecode)
  let r := draw_clip fbo st1.fbo_switcher st1.composite_texture true st1.trace
  { st1 with composite_texture := r.1, trace := r.2, fbo_switcher := !st1.fbo_switcher }

/-- The superimpose stage of `process_effect` (lines 79-98). -/
def superimpose_stage (env : Env) (fbo : FboPair) (e : Effect) (timecode : ℚ)
    (st : EffectState) : EffectState :=
  let superimpose_texture := env.process_superimpose e timecode
  if superimpose_texture = 0 then
    { st with texture_failed := true }
  else if st.composite_texture = 0 then
    { st with composite_texture := superimpose_texture }
  else
    let tr1 :=
      if st.composite_texture ≠ fbo.texture false ∧ st.composite_texture ≠ fbo.texture true then
        (draw_clip fbo (!st.fbo_switcher) st.composite_texture true st.trace).2
      else st.trace
    let r := draw_clip fbo (!st.fbo_switcher) superimpose_texture false tr1
    { st with composite_texture := r.1, trace := r.2 }

/-- The function `process_effect`; `fbo` is `c->fbo`. -/
def process_effect (env : Env) (fbo : FboPair) (e : Effect) (timecode : ℚ)
    (data : TransitionArg) (st : EffectState) : EffectState :=
  if e.is_enabled then
    let st1 := if e.enable_coords then st.emit (Event.process_coords e timecode data) else st
    let can_process_shaders := e.enable_shader && env.shaders_are_enabled
    if can_process_shaders || e.enable_superimpose then
      let st2 := st1.emit (Event.startEffect e)
      let st3 := if can_process_shaders && e.is_glsl_linked then shader_stage fbo e timecode st2 else st2
      let st4 := if e.enable_superimpose then superimpose_stage env fbo e timecode st3 else st3
      st4.emit (Event.endEffect e)
    else st1
  else st

/-- The loop over `c->effects` (lines 338-347), without the gizmo bookkeeping. -/
def process_effects (env : Env) (fbo : FboPair) (timecode : ℚ) :
    List Effect → EffectState → EffectState
  | [], st => st
  | e :: es, st =>
    process_effects env fbo timecode es
      (process_effect env fbo e timecode TransitionArg.TA_NO_TRANSITION
        (st.emit (Event.process_effect e timecode TransitionArg.TA_NO_TRANSITION)))

/-! ## `compose_sequence` -/

/-- The sequence a media pointer designates, `none` when it is not a sequence. -/
def to_sequence : Option Media → Option Nat
  | some (Media.sequence id) => some id
  | _ => none

/-- One iteration of the loop over `params.nests` (lines 112-114), on the
pair (working sequence, working playhead). -/
def nest_step (env : Env) (acc : Nat × Int) (c : Clip) : Option (Nat × Int) :=
  match to_sequence c.media with
  | none => none
  | some sid =>
    let playhead := acc.2 + (c.clip_in - c.timeline_in_with_transition)
    some (sid, env.refactor_frame_number playhead
      (env.project c.sequence).frame_rate (env.project sid).frame_rate)

/-- The loop over `params.nests` (lines 110-116). -/
def nest_loop (env : Env) : List Clip → Nat × Int → Option (Nat × Int)
  | [], acc => some acc
  | c :: cs, acc =>
    match nest_step env acc c with
    | none => none
    | some acc1 => nest_loop env cs acc1

/-- Working sequence and working playhead of a call (lines 107-116). -/
def working_position (env : Env) (params : ComposeSequenceParams) : Option (Nat × Int) :=
  nest_loop env params.nests (params.seq, (env.project params.seq).playhead)

/-- Locals of the first loop of `compose_sequence`. -/
structure ScanState where
  current_clips : List Clip
  audio_track_count : Int
  texture_failed : Bool
  trace : List Event
deriving DecidableEq

/-- Appends one event. -/
def ScanState.emit (st : ScanState) (ev : Event) : ScanState :=
  { st with trace := st.trace ++ [ev] }

/-- Lines 138-186: computes `clip_is_active` for a clip of the requested kind. -/
def clip_activation (env : Env) (rendering : Bool) (playhead : Int) (c : Clip)
    (st : ScanState) : Bool × ScanState :=
  match c.media with
  | some (Media.footage m) =>
    if !m.invalid && !(decide (c.track ≥ 0) && !env.is_audio_device_set) then
      if m.ready then
        if m.get_stream_from_file_index (decide (c.track < 0)) c.media_stream
            && env.is_clip_active c playhead then
          let st1 := if !c.is_open then st.emit (Event.open_clip c (!rendering)) else st
          (true, if c.track ≥ 0 then
            { st1 with audio_track_count := st1.audio_track_count + 1 } else st1)
        else if c.finished_opening then
          (false, st.emit (Event.close_clip c))
        else (false, st)
      else (false, { st with texture_failed := true })
    else (false, st)
  | _ =>
    if env.is_clip_active c playhead then
      (true, if !c.is_open then st.emit (Event.open_clip c (!rendering)) else st)
    else if c.finished_opening then
      (false, st.emit (Event.close_clip c))
    else (false, st)

/-- The insertion loop of lines 197-203: `some l` when the clip was inserted
before the first entry of strictly smaller track, `none` when `added` stays false. -/
def try_insert (c : Clip) : List Clip → Option (List Clip)
  | [] => none
  | x :: xs =>
    if x.track < c.track then some (c :: x :: xs)
    else (try_insert c xs).map (fun l => x :: l)

/-- Lines 189-210: adds an active clip to `current_clips`. -/
def add_clip (video : Bool) (c : Clip) (current_clips : List Clip) : List Clip :=
  match (if video then try_insert c current_clips else none) with
  | some l => l
  | none => current_clips ++ [c]

/-- One iteration of the first loop (lines 131-212). -/
def scan_clip (env : Env) (video rendering : Bool) (playhead : Int)
    (st : ScanState) (oc : Option Clip) : ScanState :=
  match oc with
  | none => st
  | some c =>
    if decide (c.track < 0) = video then
      let r := clip_activation env rendering playhead c st
      if r.1 then { r.2 with current_clips := add_clip video c r.2.current_clips } else r.2
    else st

/-- The first loop (lines 129-213). -/
def scan_clips (env : Env) (video rendering : Bool) (playhead : Int)
    (clips : List (Option Clip)) (st : ScanState) : ScanState :=
  clips.foldl (scan_clip env video rendering playhead) st

/-- The by-reference `params` with the trace. -/
structure RenderState where
  params : ComposeSequenceParams
  trace : List Event
deriving DecidableEq

/-- Appends one event. -/
def RenderState.emit (rs : RenderState) (ev : Event) : RenderState :=
  { rs with trace := rs.trace ++ [ev] }

/-- How an iteration of the second loop ends: it goes on to the next clip,
or `compose_sequence` returns. -/
inductive Flow where
  | next
  | ret (v : Nat)
deriving DecidableEq

/-- Lines 249-272: source texture of a footage clip; `none` when the texture
id is zero and the function returns. -/
def footage_texture (env : Env) (playhead : Int) (c : Clip) (rs : RenderState) :
    Option Nat × RenderState :=
  match c.media with
  | some (Media.footage _) =>
    let rs1 := if c.texture = none then rs.emit (Event.create_texture c) else rs
    let rs2 := rs1.emit (Event.get_clip_frame c (max playhead c.timeline_in))
    let rs3 := { rs2 with params := { rs2.params with
      texture_failed := env.get_clip_frame c (max playhead c.timeline_in) rs2.params.texture_failed } }
    let textureID := match c.texture with
      | some t => t
      | none => env.new_texture c
    if textureID = 0 then (none, rs3) else (some textureID, rs3)
  | _ => (some 0, rs)

/-- Lines 320-326: the auto-scale of a clip. -/
def autoscale_events (s : Sequence) (c : Clip) : List Event :=
  if c.autoscale && (decide (c.width ≠ s.width) && decide (c.height ≠ s.height)) then
    let width_multiplier : ℚ := (s.width : ℚ) / (c.width : ℚ)
    let height_multiplier : ℚ := (s.height : ℚ) / (c.height : ℚ)
    let scale_multiplier := min width_multiplier height_multiplier
    [Event.glScalef scale_multiplier scale_multiplier]
  else []

/-- Lines 356-362: the opening transition. -/
def opening_stage (env : Env) (fbo : FboPair) (playhead : Int) (c : Clip)
    (st : EffectState) : EffectState :=
  match c.opening_transition with
  | none => st
  | some t =>
    let transition_progress := playhead - c.timeline_in_with_transition
    if transition_progress < t.length then
      let tc : ℚ := (transition_progress : ℚ) / (t.length : ℚ)
      process_effect env fbo t.effect tc TransitionArg.TA_OPENING_TRANSITION
        (st.emit (Event.process_effect t.effect tc TransitionArg.TA_OPENING_TRANSITION))
    else st

/-- Lines 364-370: the closing transition. -/
def closing_stage (env : Env) (fbo : FboPair) (playhead : Int) (c : Clip)
    (st : EffectState) : EffectState :=
  match c.closing_transition with
  | none => st
  | some t =>
    let transition_progress := playhead - (c.timeline_out_with_transition - t.length)
    if 0 ≤ transition_progress ∧ transition_progress < t.length then
      let tc : ℚ := (transition_progress : ℚ) / (t.length : ℚ)
      process_effect env fbo t.effect tc TransitionArg.TA_CLOSING_TRANSITION
        (st.emit (Event.process_effect t.effect tc TransitionArg.TA_CLOSING_TRANSITION))
    else st

/-- Lines 306-450 for a clip whose source texture and toggle are known:
auto-scale, effect chain, transitions and the final quad. -/
def draw_stage (env : Env) (s : Sequence) (playhead : Int) (final_fbo : Nat) (c : Clip)
    (fbo : FboPair) (textureID : Nat) (fbo_switcher : Bool) (rs : RenderState) : RenderState :=
  let st0 : EffectState :=
    { composite_texture := textureID, fbo_switcher := fbo_switcher,
      texture_failed := rs.params.texture_failed,
      trace := rs.trace ++ autoscale_events s c }
  let timecode := env.get_timecode c playhead
  let st1 := process_effects env fbo timecode c.effects st0
  let st2 := opening_stage env fbo playhead c st1
  let st3 := closing_stage env fbo playhead c st2
  { params := { rs.params with texture_failed := st3.texture_failed },
    trace := st3.trace ++ [Event.final_draw c st3.composite_texture final_fbo] }

/-- Lines 237-462: a video clip of the second loop. `recur` is the recursive
call of `compose_sequence`. -/
def draw_video_clip (recur : RenderState → Option (Nat × RenderState)) (env : Env)
    (s : Sequence) (playhead : Int) (final_fbo : Nat) (c : Clip) (rs : RenderState) :
    Option (Flow × RenderState) :=
  match footage_texture env playhead c rs with
  | (none, rs1) => some (Flow.ret 0, rs1)
  | (some textureID, rs1) =>
    let rs2 := if c.fbo = none then rs1.emit (Event.alloc_fbo c) else rs1
    let fbo := match c.fbo with
      | some f => f
      | none => env.new_fbo c
    if playhead ≥ c.timeline_in_with_transition then
      match to_sequence c.media with
      | some _ =>
        match recur { rs2 with params := { rs2.params with
            nests := rs2.params.nests ++ [{ c with fbo := some fbo }] } } with
        | none => none
        | some (tex, rs3) =>
          let rs4 := { rs3 with params := { rs3.params with nests := rs3.params.nests.dropLast } }
          some (Flow.next, draw_stage env s playhead final_fbo c fbo tex true rs4)
      | none => some (Flow.next, draw_stage env s playhead final_fbo c fbo textureID false rs2)
    else some (Flow.next, rs2)

/-- Lines 483-488: the fields of the rows of one effect. -/
def validate_rows (e : Effect) (ts : ℚ) : Nat → List Nat → List Event
  | _, [] => []
  | j, n :: rows =>
    (List.range n).map (fun k => Event.validate_keyframe_data e j k ts)
      ++ validate_rows e ts (j + 1) rows

/-- Lines 481-489: the loop over the effects of a clip. -/
def validate_effects (ts : ℚ) : List Effect → List Event
  | [] => []
  | e :: es => validate_rows e ts 0 e.rows ++ validate_effects ts es

/-- Lines 464-490: an audio clip of the second loop. -/
def cache_audio_clip (recur : RenderState → Option (Nat × RenderState)) (env : Env)
    (s : Sequence) (playhead : Int) (c : Clip) (rs : RenderState) :
    Option (Flow × RenderState) :=
  let params := rs.params
  let after_cache : Option RenderState :=
    if params.render_audio || (env.enable_audio_scrubbing && env.audio_scrub
        && decide ((env.project params.seq).playhead > c.timeline_in)) then
      match to_sequence c.media with
      | some _ =>
        match recur { rs with params := { params with nests := params.nests ++ [c] } } with
        | none => none
        | some (_, rs1) =>
          some { rs1 with params := { rs1.params with nests := rs1.params.nests.dropLast } }
      | none =>
        if env.try_lock c then
          some (rs.emit (Event.cache_clip c playhead c.audio_reset (!params.render_audio)
            params.nests params.playback_speed))
        else some rs
    else some rs
  match after_cache with
  | none => none
  | some rs1 =>
    if c.sequence = rs1.params.seq then
      let frame : Int := playhead - c.timeline_in_with_transition + c.clip_in_with_transition
      let ts : ℚ := (frame : ℚ) / s.frame_rate
      some (Flow.next, { rs1 with trace := rs1.trace ++ validate_effects ts c.effects })
    else some (Flow.next, rs1)

/-- Lines 229-492: one iteration of the second loop. -/
def process_clip (recur : RenderState → Option (Nat × RenderState)) (env : Env)
    (s : Sequence) (playhead : Int) (final_fbo : Nat) (c : Clip) (rs : RenderState) :
    Option (Flow × RenderState) :=
  if (match c.media with
      | some (Media.footage _) => true
      | _ => false) && !c.finished_opening then
    some (Flow.next, { rs with params := { rs.params with texture_failed := true } })
  else if c.track < 0 then
    draw_video_clip recur env s playhead final_fbo c rs
  else
    cache_audio_clip recur env s playhead c rs

/-- The second loop (lines 228-493): `some v` in the first component when an
iteration returned `v` from `compose_sequence`. -/
def process_clips (recur : RenderState → Option (Nat × RenderState)) (env : Env)
    (s : Sequence) (playhead : Int) (final_fbo : Nat) :
    List Clip → RenderState → Option (Option Nat × RenderState)
  | [], rs => some (none, rs)
  | c :: cs, rs =>
    match process_clip recur env s playhead final_fbo c rs with
    | none => none
    | some (Flow.ret v, rs1) => some (some v, rs1)
    | some (Flow.next, rs1) => process_clips recur env s playhead final_fbo cs rs1

/-- Lines 117-121: the destination of a nested video pass. -/
def bind_final_fbo (rs : RenderState) : Nat × RenderState :=
  match rs.params.nests.getLast? with
  | some n =>
    match (if rs.params.video then n.fbo else none) with
    | some f => (f.handle0, rs.emit (Event.clear_fbo f.handle0))
    | none => (rs.params.main_buffer, rs)
  | none => (rs.params.main_buffer, rs)

/-- Lines 503-508: the value returned at the end. -/
def return_texture (params : ComposeSequenceParams) : Nat :=
  match params.nests.getLast? with
  | some n =>
    match n.fbo with
    | some f => f.texture false
    | none => 0
  | none => 0

/-- The body of `compose_sequence`, its recursive calls being `recur`. The
result is `none` when a recursive call gives `none` or when an entry of the
nest list does not designate a sequence. -/
def compose_sequence_body (recur : RenderState → Option (Nat × RenderState)) (env : Env)
    (rs : RenderState) : Option (Nat × RenderState) :=
  match working_position env rs.params with
  | none => none
  | some (sid, playhead) =>
    let s := env.project sid
    let b := bind_final_fbo rs
    let final_fbo := b.1
    let rs1 := b.2
    let scan := scan_clips env rs1.params.video rs1.params.rendering playhead s.clips
      { current_clips := [], audio_track_count := 0,
        texture_failed := rs1.params.texture_failed, trace := rs1.trace }
    let rs2 : RenderState :=
      { params := { rs1.params with texture_failed := scan.texture_failed }, trace := scan.trace }
    match process_clips recur env s playhead final_fbo scan.current_clips rs2 with
    | none => none
    | some (some v, rs3) => some (v, rs3)
    | some (none, rs3) =>
      let rs4 := if scan.audio_track_count = 0 ∧ rs3.params.viewer ≠ none
        then rs3.emit Event.play_wake else rs3
      some (return_texture rs4.params, rs4)

/-- The function `compose_sequence`, with a bound on the nesting depth:
`none` when the bound is exhausted. -/
def compose_sequence (env : Env) : Nat → RenderState → Option (Nat × RenderState)
  | 0, _ => none
  | fuel + 1, rs => compose_sequence_body (compose_sequence env fuel) env rs

/-- The function `compose_audio`; fields it leaves unset are at their defaults. -/
def compose_audio (env : Env) (fuel : Nat) (viewer : Option Nat) (seq : Nat)
    (render_audio : Bool) (playback_speed : Int) : Option RenderState :=
  (compose_sequence env fuel
    { params :=
        { viewer := viewer, seq := seq, nests := [], video := false,
          render_audio := render_audio, rendering := env.audio_rendering,
          playback_speed := playback_speed, main_buffer := 0, texture_failed := false },
      trace := [] }).map (fun r => r.2)

/-! ## Derived definitions used in the statements -/

/-- The value the local `clip_is_active` has at line 189 for a clip of the
requested kind (lines 138-186 without their side effects). -/
def clip_is_active (env : Env) (playhead : Int) (c : Clip) : Bool :=
  match c.media with
  | some (Media.footage m) =>
    (!m.invalid && !(decide (c.track ≥ 0) && !env.is_audio_device_set)) && m.ready
      && (m.get_stream_from_file_index (decide (c.track < 0)) c.media_stream
        && env.is_clip_active c playhead)
  | _ => env.is_clip_active c playhead

/-- The clips of a clip list that a pass selects, in the order of the list:
non-null, of the kind of the pass, and active. -/
def selected_clips (env : Env) (video : Bool) (playhead : Int) :
    List (Option Clip) → List Clip
  | [] => []
  | none :: cs => selected_clips env video playhead cs
  | some c :: cs =>
    if decide (c.track < 0) = video ∧ clip_is_active env playhead c = true then
      c :: selected_clips env video playhead cs
    else selected_clips env video playhead cs

/-- The empty state the first loop starts from. -/
def scan_init (texture_failed : Bool) (trace : List Event) : ScanState :=
  { current_clips := [], audio_track_count := 0, texture_failed := texture_failed, trace := trace }

/-- The active-clip list `current_clips` that `compose_sequence` builds for a
clip list and a working playhead. -/
def active_clips (env : Env) (video rendering : Bool) (playhead : Int)
    (clips : List (Option Clip)) : List Clip :=
  (scan_clips env video rendering playhead clips (scan_init false [])).current_clips

/-- The render-target writes of a trace: for each `draw_clip`, the index of
the target written and the texture read. -/
def render_target_writes : List Event → List (Bool × Nat)
  | [] => []
  | Event.draw_clip _ index texture _ :: evs => (index, texture) :: render_target_writes evs
  | _ :: evs => render_target_writes evs

/-- The list `[b, !b, b, ...]` of length `n`. -/
def alternating : Bool → Nat → List Bool
  | _, 0 => []
  | b, n + 1 => b :: alternating (!b) n

/-- An enabled effect with a linked shader and no superimpose stage. -/
def shader_only (e : Effect) : Prop :=
  e.is_enabled = true ∧ e.enable_shader = true ∧ e.is_glsl_linked = true
    ∧ e.enable_superimpose = false

/-- The state `process_effect` is first called with for one clip. -/
def effect_init (texture : Nat) (fbo_switcher texture_failed : Bool) : EffectState :=
  { composite_texture := texture, fbo_switcher := fbo_switcher,
    texture_failed := texture_failed, trace := [] }

/-- A pair of render targets with textures 11 and 12. -/
def sample_fbo : FboPair := { texture0 := 11, texture1 := 12, handle0 := 21 }

/-- An enabled effect with a linked shader only. -/
def sample_shader_effect : Effect :=
  { id := 1, is_enabled := true, enable_coords := false, enable_shader := true,
    enable_superimpose := false, is_glsl_linked := true, rows := [] }

/-- An environment with shaders and scrubbing enabled in which every clip is
active, no frame number is retimed and every project slot holds the empty
sequence. -/
def sample_env : Env :=
  { project := fun _ => { clips := [], width := 1920, height := 1080, frame_rate := 30, playhead := 0 },
    shaders_are_enabled := true,
    is_audio_device_set := true,
    enable_audio_scrubbing := true,
    audio_scrub := true,
    audio_rendering := false,
    is_clip_active := fun _ _ => true,
    refactor_frame_number := fun f _ _ => f,
    get_timecode := fun _ _ => 0,
    process_superimpose := fun _ _ => 0,
    get_clip_frame := fun _ _ b => b,
    new_texture := fun _ => 5,
    new_fbo := fun _ => sample_fbo,
    try_lock := fun _ => true }

/-- Modelled from the spec: `retime(frameNumber, fromRate, toRate)`, the
"linear rescale by the ratio of frame rates with integer rounding toward the
nearest frame"; the body of `refactor_frame_number` is not in this file. -/
def refactor_frame_number_spec (framenumber : Int) (source_frame_rate target_frame_rate : ℚ) : Int :=
  round ((framenumber : ℚ) / source_frame_rate * target_frame_rate)

/-- Modelled from the spec: `isActiveAt(clip, playhead)`, true when "the
clip's time interval contains the playhead", the interval being
`[timeline_in_with_transition, timeline_out_with_transition)`; the body of
`is_clip_active` is not in this file. -/
def is_clip_active_spec (c : Clip) (playhead : Int) : Bool :=
  decide (c.timeline_in_with_transition ≤ playhead ∧ playhead < c.timeline_out_with_transition)

/-- The sequence id a nest clip designates (0 when its media is not a sequence). -/
def nested_sequence (c : Clip) : Nat :=
  (to_sequence c.media).getD 0

/-- A null-media video clip on track -1 of sequence 0, spanning frames 0 to 100,
1920 by 1080, without effects. -/
def sample_clip : Clip :=
  { sequence := 0, media := none, media_stream := 0, track := -1, timeline_in := 0,
    clip_in := 0, timeline_in_with_transition := 0, timeline_out_with_transition := 100,
    clip_in_with_transition := 0, is_open := true, finished_opening := true,
    autoscale := true, width := 1920, height := 1080, effects := [],
    opening_transition := none, closing_transition := none, fbo := none, texture := none,
    audio_reset := false }

/-- Scenario 1: the root sequence 0 and the nested sequence 1, both at 30 fps,
the root playhead at 40. -/
def scenario1_env : Env :=
  { sample_env with
    project := fun i =>
      if i = 0 then { clips := [], width := 1920, height := 1080, frame_rate := 30, playhead := 40 }
      else { clips := [], width := 1920, height := 1080, frame_rate := 30, playhead := 0 },
    refactor_frame_number := refactor_frame_number_spec }

/-- Scenario 1: the clip of sequence 0 that nests sequence 1, with
`clip_in = 0` and `timeline_in_with_transition = 10`. -/
def scenario1_nest : Clip :=
  { sample_clip with
    media := some (Media.sequence 1), timeline_in := 10, timeline_in_with_transition := 10 }

/-- Scenario 1: a video pass on sequence 0 with one nesting level. -/
def scenario1_params : ComposeSequenceParams :=
  { viewer := none, seq := 0, nests := [scenario1_nest], video := true, render_audio := false,
    rendering := false, playback_speed := 1, main_buffer := 0, texture_failed := false }

/-- An environment whose `is_clip_active` is the one of the spec. -/
def with_spec_activity (env : Env) : Env :=
  { env with is_clip_active := is_clip_active_spec }

/-- Scenario 3 as the spec words it: a clip on track 0. -/
def scenario3_track0 : Clip := { sample_clip with track := 0 }

/-- Scenario 3 as the spec words it: a clip on track 1. -/
def scenario3_track1 : Clip := { sample_clip with track := 1 }

/-- Scenario 3 on video tracks: a clip on track -2. -/
def scenario3_lower : Clip := { sample_clip with track := -2 }

/-- The events `process_effect` itself emits. -/
def effect_event : Event → Bool
  | Event.process_coords _ _ _ => true
  | Event.startEffect _ => true
  | Event.process_shader _ _ => true
  | Event.draw_clip _ _ _ _ => true
  | Event.endEffect _ => true
  | _ => false

/-- A call of `glScalef`: its two factors. -/
def scale_call : Event → Option (ℚ × ℚ)
  | Event.glScalef x y => some (x, y)
  | _ => none

/-- The calls of `glScalef` in a trace. -/
def scale_calls (trace : List Event) : List (ℚ × ℚ) :=
  trace.filterMap scale_call

/-- A state of the second loop with an empty trace and the flag down. -/
def sample_state : RenderState :=
  { params :=
      { viewer := none, seq := 0, nests := [], video := true, render_audio := false,
        rendering := false, playback_speed := 1, main_buffer := 0, texture_failed := false },
    trace := [] }

/-- The 1920 by 1080 sequence at 30 fps without clips. -/
def sample_sequence : Sequence :=
  { clips := [], width := 1920, height := 1080, frame_rate := 30, playhead := 0 }

/-- A ready footage with one video stream, of file index 0. -/
def sample_footage : Footage :=
  { invalid := false, ready := true, video_tracks := [0], audio_tracks := [] }

/-- A footage clip on track -1 whose decode texture has the id 0. -/
def failed_texture_clip : Clip :=
  { sample_clip with media := some (Media.footage sample_footage), texture := some 0 }

/-- A footage clip on track -2 whose decode texture has the id 7. -/
def good_texture_clip : Clip :=
  { sample_clip with media := some (Media.footage sample_footage), track := -2, texture := some 7 }

/-- An environment whose sequence 0 holds the two footage clips, playhead at 5. -/
def failed_texture_env : Env :=
  { sample_env with
    project := fun _ =>
      { clips := [some failed_texture_clip, some good_texture_clip],
        width := 1920, height := 1080, frame_rate := 30, playhead := 5 } }

/-- An enabled effect with a linked shader and a superimpose stage. -/
def shader_superimpose_effect : Effect :=
  { id := 2, is_enabled := true, enable_coords := false, enable_shader := true,
    enable_superimpose := true, is_glsl_linked := true, rows := [] }

/-- An enabled effect with a superimpose stage only. -/
def superimpose_effect : Effect :=
  { id := 3, is_enabled := true, enable_coords := false, enable_shader := false,
    enable_superimpose := true, is_glsl_linked := false, rows := [] }

/-- A null-media video clip carrying the superimpose effect. -/
def superimpose_clip : Clip := { sample_clip with effects := [superimpose_effect] }

/-- A 3840 by 1080 clip with auto-scale on: as high as the sample sequence,
twice as wide. -/
def wide_clip : Clip := { sample_clip with width := 3840 }

/-- An environment whose sequence 0 holds one video clip and a null entry. -/
def silent_env : Env :=
  { sample_env with
    project := fun _ =>
      { clips := [some sample_clip, none], width := 1920, height := 1080, frame_rate := 30,
        playhead := 5 } }

/-- A call of `validate_keyframe_data`: effect, row, field and timestamp. -/
def keyframe_call : Event → Option (Effect × Nat × Nat × ℚ)
  | Event.validate_keyframe_data e row field ts => some (e, row, field, ts)
  | _ => none

/-- The calls of `validate_keyframe_data` in a trace. -/
def keyframe_calls (trace : List Event) : List (Effect × Nat × Nat × ℚ) :=
  trace.filterMap keyframe_call

/-- An enabled coordinate effect with one row of two fields. -/
def keyframed_effect : Effect :=
  { id := 4, is_enabled := true, enable_coords := true, enable_shader := false,
    enable_superimpose := false, is_glsl_linked := false, rows := [2] }

/-- A null-media video clip of sequence 0, on track -1, carrying the
keyframed effect. -/
def keyframed_video_clip : Clip := { sample_clip with effects := [keyframed_effect] }

/-- A null-media audio clip of sequence 0, on track 0, carrying the keyframed effect. -/
def keyframed_audio_clip : Clip := { sample_clip with track := 0, effects := [keyframed_effect] }

/-- An environment whose sequence 0 holds the keyframed video clip, playhead at 5. -/
def keyframed_env : Env :=
  { sample_env with
    project := fun _ =>
      { clips := [some keyframed_video_clip], width := 1920, height := 1080, frame_rate := 30,
        playhead := 5 } }

/-- A state of the second loop of an audio pass on sequence 0, with an empty trace. -/
def sample_audio_state : RenderState :=
  { params :=
      { viewer := none, seq := 0, nests := [], video := false, render_audio := true,
        rendering := false, playback_speed := 1, main_buffer := 0, texture_failed := false },
    trace := [] }

/-! ## The first loop -/

theorem clip_activation_fst (env : Env) (rendering : Bool) (playhead : Int) (c : Clip)
    (st : ScanState) :
    (clip_activation env rendering playhead c st).1 = clip_is_active env playhead c := by
  unfold clip_activation clip_is_active
  split
  · split_ifs <;> simp_all
  · split_ifs <;> simp_all

theorem clip_activation_current_clips (env : Env) (rendering : Bool) (playhead : Int)
    (c : Clip) (st : ScanState) :
    (clip_activation env rendering playhead c st).2.current_clips = st.current_clips := by
  unfold clip_activation
  split <;> split_ifs <;> simp [ScanState.emit]

theorem add_clip_video_cons (c x : Clip) (xs : List Clip) :
    add_clip true c (x :: xs)
      = if x.track < c.track then c :: x :: xs else x :: add_clip true c xs := by
  unfold add_clip
  simp only [if_true, try_insert]
  split_ifs with h
  · rfl
  · cases try_insert c xs <;> simp

theorem add_clip_video_nil (c : Clip) : add_clip true c [] = [c] := by
  simp [add_clip, try_insert]

theorem mem_add_clip_video (c y : Clip) (l : List Clip) :
    y ∈ add_clip true c l ↔ y = c ∨ y ∈ l := by
  induction l with
  | nil => simp [add_clip_video_nil]
  | cons x xs ih =>
    rw [add_clip_video_cons]
    split_ifs
    · simp
    · simp only [List.mem_cons, ih]; tauto

theorem add_clip_video_pairwise (c : Clip) (l : List Clip)
    (hl : l.Pairwise (fun a b => b.track ≤ a.track)) :
    (add_clip true c l).Pairwise (fun a b => b.track ≤ a.track) := by
  induction l with
  | nil => simp [add_clip_video_nil]
  | cons x xs ih =>
    rw [add_clip_video_cons]
    rw [List.pairwise_cons] at hl
    split_ifs with h
    · refine List.pairwise_cons.mpr ⟨?_, List.pairwise_cons.mpr hl⟩
      intro y hy
      rcases List.mem_cons.mp hy with rfl | hy
      · omega
      · have := hl.1 y hy
        omega
    · refine List.pairwise_cons.mpr ⟨?_, ih hl.2⟩
      intro y hy
      rcases (mem_add_clip_video c y xs).mp hy with rfl | hy
      · omega
      · exact hl.1 y hy

theorem add_clip_video_filter (t : Int) (c : Clip) (l : List Clip)
    (hl : l.Pairwise (fun a b => b.track ≤ a.track)) :
    (add_clip true c l).filter (fun a => decide (a.track = t))
      = l.filter (fun a => decide (a.track = t)) ++ (if c.track = t then [c] else []) := by
  induction l with
  | nil => rw [add_clip_video_nil]; split_ifs with h <;> simp [List.filter, h]
  | cons x xs ih =>
    rw [add_clip_video_cons]
    rw [List.pairwise_cons] at hl
    split_ifs with h ht ht
    · have hnil : (x :: xs).filter (fun a => decide (a.track = t)) = [] := by
        apply List.filter_eq_nil_iff.mpr
        intro y hy
        rcases List.mem_cons.mp hy with rfl | hy
        · simp; omega
        · have := hl.1 y hy
          simp; omega
      rw [List.filter_cons, hnil]
      simp [ht]
    · rw [List.filter_cons]
      simp [ht]
    · rw [List.filter_cons, ih hl.2, if_pos ht, List.filter_cons]
      split_ifs <;> simp
    · rw [List.filter_cons, ih hl.2, if_neg ht, List.filter_cons]
      split_ifs <;> simp

theorem scan_clip_current_clips (env : Env) (video rendering : Bool) (playhead : Int)
    (st : ScanState) (c : Clip) :
    (scan_clip env video rendering playhead st (some c)).current_clips
      = if decide (c.track < 0) = video ∧ clip_is_active env playhead c = true then
          add_clip video c st.current_clips
        else st.current_clips := by
  unfold scan_clip
  simp only [clip_activation_fst]
  by_cases h1 : decide (c.track < 0) = video
  · by_cases h2 : clip_is_active env playhead c = true
    · simp [h1, h2, clip_activation_current_clips]
    · simp [h1, h2, clip_activation_current_clips]
  · simp [h1]

theorem scan_clips_video_sorted (env : Env) (rendering : Bool) (playhead : Int)
    (clips : List (Option Clip)) (st : ScanState)
    (hst : st.current_clips.Pairwise (fun a b => b.track ≤ a.track)) :
    (scan_clips env true rendering playhead clips st).current_clips.Pairwise
        (fun a b => b.track ≤ a.track)
    ∧ ∀ t : Int,
      (scan_clips env true rendering playhead clips st).current_clips.filter
          (fun a => decide (a.track = t))
        = st.current_clips.filter (fun a => decide (a.track = t))
          ++ (selected_clips env true playhead clips).filter (fun a => decide (a.track = t)) := by
  induction clips generalizing st with
  | nil => simp [scan_clips, selected_clips, hst]
  | cons oc cs ih =>
    cases oc with
    | none =>
      have := ih st hst
      simpa [scan_clips, scan_clip, selected_clips] using this
    | some c =>
      have hcur := scan_clip_current_clips env true rendering playhead st c
      by_cases hsel : decide (c.track < 0) = true ∧ clip_is_active env playhead c = true
      · rw [if_pos hsel] at hcur
        have hp : (scan_clip env true rendering playhead st (some c)).current_clips.Pairwise
            (fun a b => b.track ≤ a.track) := by
          rw [hcur]; exact add_clip_video_pairwise c _ hst
        have := ih (scan_clip env true rendering playhead st (some c)) hp
        refine ⟨by simpa [scan_clips] using this.1, ?_⟩
        intro t
        have h2 := this.2 t
        simp only [scan_clips, List.foldl_cons] at h2 ⊢
        rw [h2, hcur, add_clip_video_filter t c _ hst]
        simp only [selected_clips, if_pos hsel, List.filter_cons]
        split_ifs <;> simp_all
      · rw [if_neg hsel] at hcur
        have hp : (scan_clip env true rendering playhead st (some c)).current_clips.Pairwise
            (fun a b => b.track ≤ a.track) := by
          rw [hcur]; exact hst
        have := ih (scan_clip env true rendering playhead st (some c)) hp
        refine ⟨by simpa [scan_clips] using this.1, ?_⟩
        intro t
        have h2 := this.2 t
        simp only [scan_clips, List.foldl_cons] at h2 ⊢
        rw [h2, hcur]
        simp only [selected_clips, if_neg hsel]

/-- C1: in a video pass the active-clip list is ordered by non-increasing
track, and for every track value the active clips of that track stand in the
list in the order they have in the clip list of the sequence. -/
theorem active_clips_video_sorted_stable (env : Env) (rendering : Bool) (playhead : Int)
    (clips : List (Option Clip)) :
    (active_clips env true rendering playhead clips).Pairwise (fun a b => b.track ≤ a.track)
    ∧ ∀ t : Int,
      (active_clips env true rendering playhead clips).filter (fun a => decide (a.track = t))
        = (selected_clips env true playhead clips).filter (fun a => decide (a.track = t)) := by
  have h := scan_clips_video_sorted env rendering playhead clips (scan_init false [])
    (by simp [scan_init])
  refine ⟨h.1, fun t => ?_⟩
  have h2 := h.2 t
  simpa [active_clips, scan_init] using h2

/-! ## The effect chain -/

theorem render_target_writes_append (a b : List Event) :
    render_target_writes (a ++ b) = render_target_writes a ++ render_target_writes b := by
  induction a with
  | nil => rfl
  | cons ev evs ih => cases ev <;> simp [render_target_writes, ih]

theorem process_effect_shader_only (env : Env) (hsh : env.shaders_are_enabled = true)
    (fbo : FboPair) (e : Effect) (he : shader_only e) (timecode : ℚ) (data : TransitionArg)
    (st : EffectState) :
    (process_effect env fbo e timecode data st).composite_texture = fbo.texture st.fbo_switcher
    ∧ (process_effect env fbo e timecode data st).fbo_switcher = !st.fbo_switcher
    ∧ render_target_writes (process_effect env fbo e timecode data st).trace
        = render_target_writes st.trace ++ [(st.fbo_switcher, st.composite_texture)] := by
  obtain ⟨h1, h2, h3, h4⟩ := he
  unfold process_effect
  by_cases hc : e.enable_coords = true
  · simp [h1, h2, h3, h4, hsh, hc, shader_stage, draw_clip, EffectState.emit,
      render_target_writes_append, render_target_writes]
  · simp [h1, h2, h3, h4, hsh, hc, shader_stage, draw_clip, EffectState.emit,
      render_target_writes_append, render_target_writes]

theorem process_effects_shader_only (env : Env) (hsh : env.shaders_are_enabled = true)
    (fbo : FboPair) (hfbo : fbo.texture0 ≠ fbo.texture1) (timecode : ℚ) (es : List Effect)
    (hes : ∀ e ∈ es, shader_only e) (st : EffectState) :
    ∃ ws : List (Bool × Nat),
      render_target_writes (process_effects env fbo timecode es st).trace
        = render_target_writes st.trace ++ ws
      ∧ ws.length = es.length
      ∧ ws.map Prod.fst = alternating st.fbo_switcher es.length
      ∧ (st.composite_texture ≠ fbo.texture st.fbo_switcher →
          ∀ w ∈ ws, w.2 ≠ fbo.texture w.1) := by
  induction es generalizing st with
  | nil => exact ⟨[], by simp [process_effects, alternating]⟩
  | cons e es ih =>
    have he := hes e (List.mem_cons_self e es)
    obtain ⟨hc, hs, hw⟩ := process_effect_shader_only env hsh fbo e he timecode
      TransitionArg.TA_NO_TRANSITION
      (st.emit (Event.process_effect e timecode TransitionArg.TA_NO_TRANSITION))
    obtain ⟨ws, h1, h2, h3, h4⟩ := ih (fun x hx => hes x (List.mem_cons_of_mem e hx))
      (process_effect env fbo e timecode TransitionArg.TA_NO_TRANSITION
        (st.emit (Event.process_effect e timecode TransitionArg.TA_NO_TRANSITION)))
    refine ⟨(st.fbo_switcher, st.composite_texture) :: ws, ?_, ?_, ?_, ?_⟩
    · simp only [process_effects]
      rw [h1, hw]
      simp [EffectState.emit, render_target_writes_append, render_target_writes]
    · simp [h2]
    · rw [hs] at h3
      simp [alternating, h3, EffectState.emit]
    · intro hne w hw
      rcases List.mem_cons.mp hw with rfl | hw
      · exact hne
      · refine h4 ?_ w hw
        rw [hc, hs]
        simp only [EffectState.emit]
        cases st.fbo_switcher <;> simp [FboPair.texture, hfbo, Ne.symm hfbo]

/-- C2: with shader support on, a chain of `N` enabled effects with a linked
shader and no superimpose stage, run through `process_effect` on one clip
whose two render-target textures differ, makes exactly `N` render-target
writes, whose targets are `fbo[0], fbo[1], fbo[0], ...` when the toggle starts
false (footage source, whose texture is not that of `fbo[0]`) and
`fbo[1], fbo[0], fbo[1], ...` when it starts true on the texture of `fbo[0]`
(nested-sequence source), and no write reads the texture of its own target. -/
theorem ping_pong_shader_chain (env : Env) (hsh : env.shaders_are_enabled = true)
    (fbo : FboPair) (hfbo : fbo.texture0 ≠ fbo.texture1) (timecode : ℚ) (es : List Effect)
    (hes : ∀ e ∈ es, shader_only e) (source_texture : Nat)
    (hsrc : source_texture ≠ fbo.texture0) (texture_failed : Bool) :
    ((render_target_writes (process_effects env fbo timecode es
          (effect_init source_texture false texture_failed)).trace).length = es.length
      ∧ (render_target_writes (process_effects env fbo timecode es
          (effect_init source_texture false texture_failed)).trace).map Prod.fst
          = alternating false es.length
      ∧ ∀ w ∈ render_target_writes (process_effects env fbo timecode es
          (effect_init source_texture false texture_failed)).trace, w.2 ≠ fbo.texture w.1)
    ∧ ((render_target_writes (process_effects env fbo timecode es
          (effect_init (fbo.texture false) true texture_failed)).trace).length = es.length
      ∧ (render_target_writes (process_effects env fbo timecode es
          (effect_init (fbo.texture false) true texture_failed)).trace).map Prod.fst
          = alternating true es.length
      ∧ ∀ w ∈ render_target_writes (process_effects env fbo timecode es
          (effect_init (fbo.texture false) true texture_failed)).trace, w.2 ≠ fbo.texture w.1) := by
  constructor
  · obtain ⟨ws, h1, h2, h3, h4⟩ := process_effects_shader_only env hsh fbo hfbo timecode es hes
      (effect_init source_texture false texture_failed)
    simp only [effect_init, render_target_writes, List.nil_append] at h1 h3 h4
    simp only [effect_init]
    rw [h1]
    exact ⟨h2, h3, h4 (by simpa [FboPair.texture] using hsrc)⟩
  · obtain ⟨ws, h1, h2, h3, h4⟩ := process_effects_shader_only env hsh fbo hfbo timecode es hes
      (effect_init (fbo.texture false) true texture_failed)
    simp only [effect_init, render_target_writes, List.nil_append] at h1 h3 h4
    simp only [effect_init]
    rw [h1]
    exact ⟨h2, h3, h4 (by simpa [FboPair.texture] using hfbo)⟩

/-- Witness of C2: two shader effects on the sample render targets, the
footage texture being 5. -/
theorem ping_pong_shader_chain_witness :
    ((render_target_writes (process_effects sample_env sample_fbo 0
          [sample_shader_effect, sample_shader_effect] (effect_init 5 false false)).trace).length = 2
      ∧ (render_target_writes (process_effects sample_env sample_fbo 0
          [sample_shader_effect, sample_shader_effect] (effect_init 5 false false)).trace).map Prod.fst
          = alternating false 2
      ∧ ∀ w ∈ render_target_writes (process_effects sample_env sample_fbo 0
          [sample_shader_effect, sample_shader_effect] (effect_init 5 false false)).trace,
          w.2 ≠ sample_fbo.texture w.1)
    ∧ ((render_target_writes (process_effects sample_env sample_fbo 0
          [sample_shader_effect, sample_shader_effect]
          (effect_init (sample_fbo.texture false) true false)).trace).length = 2
      ∧ (render_target_writes (process_effects sample_env sample_fbo 0
          [sample_shader_effect, sample_shader_effect]
          (effect_init (sample_fbo.texture false) true false)).trace).map Prod.fst
          = alternating true 2
      ∧ ∀ w ∈ render_target_writes (process_effects sample_env sample_fbo 0
          [sample_shader_effect, sample_shader_effect]
          (effect_init (sample_fbo.texture false) true false)).trace,
          w.2 ≠ sample_fbo.texture w.1) :=
  ping_pong_shader_chain sample_env rfl sample_fbo (by decide) 0
    [sample_shader_effect, sample_shader_effect]
    (by
      intro e he
      simp only [List.mem_cons, List.mem_singleton, List.not_mem_nil, or_false, or_self] at he
      subst he
      exact ⟨rfl, rfl, rfl, rfl⟩)
    5 (by decide) false

/-! ## The nesting loop -/

theorem nest_loop_eq (env : Env) (nests : List Clip)
    (hseq : ∀ c ∈ nests, ∃ sid, c.media = some (Media.sequence sid)) (acc : Nat × Int) :
    nest_loop env nests acc
      = some ((nests.getLast?.map nested_sequence).getD acc.1,
          nests.foldl (fun p c => env.refactor_frame_number
              (p + c.clip_in - c.timeline_in_with_transition)
              (env.project c.sequence).frame_rate
              (env.project (nested_sequence c)).frame_rate) acc.2) := by
  induction nests generalizing acc with
  | nil => simp [nest_loop]
  | cons c cs ih =>
    obtain ⟨sid, hsid⟩ := hseq c (List.mem_cons_self c cs)
    have hcs : ∀ x ∈ cs, ∃ sid, x.media = some (Media.sequence sid) :=
      fun x hx => hseq x (List.mem_cons_of_mem c hx)
    simp only [nest_loop, nest_step, hsid, to_sequence, List.foldl_cons]
    rw [ih hcs]
    have hrate : acc.2 + (c.clip_in - c.timeline_in_with_transition)
        = acc.2 + c.clip_in - c.timeline_in_with_transition := by omega
    simp only [nested_sequence, hsid, to_sequence, Option.getD_some, hrate]
    cases cs with
    | nil => simp [nested_sequence, hsid, to_sequence]
    | cons d ds =>
      rw [List.getLast?_cons_cons, List.getLast?_eq_getLast _ (List.cons_ne_nil d ds)]
      simp

/-- C3: for a non-empty nest list whose clips designate sequences, the working
sequence is the one designated by the last nest clip and the working playhead
is the root playhead after one step
`p := retime (p + clip_in - timeline_in_with_transition) (rate of the owner) (rate of the nested sequence)`
per nest clip, in list order; with the retiming of the spec, one level, both
rates 30, `clip_in = 0`, `timeline_in_with_transition = 10` and root playhead
40, the working playhead is 30. -/
theorem working_position_nested (env : Env) (params : ComposeSequenceParams)
    (hne : params.nests ≠ [])
    (hseq : ∀ c ∈ params.nests, ∃ sid, c.media = some (Media.sequence sid)) :
    working_position env params
        = some (nested_sequence (params.nests.getLast hne),
            params.nests.foldl (fun p c => env.refactor_frame_number
              (p + c.clip_in - c.timeline_in_with_transition)
              (env.project c.sequence).frame_rate
              (env.project (nested_sequence c)).frame_rate) (env.project params.seq).playhead)
    ∧ working_position scenario1_env scenario1_params = some (1, 30) := by
  constructor
  · unfold working_position
    rw [nest_loop_eq env params.nests hseq]
    simp [List.getLast?_eq_getLast _ hne]
  · simp [working_position, scenario1_params, scenario1_nest, sample_clip, nest_loop, nest_step,
      to_sequence, scenario1_env, sample_env, refactor_frame_number_spec]

/-- Witness of C3: the one-level nest list of scenario 1. -/
theorem working_position_nested_witness :
    working_position scenario1_env scenario1_params
        = some (nested_sequence (scenario1_params.nests.getLast (by decide)),
            scenario1_params.nests.foldl (fun p c => scenario1_env.refactor_frame_number
              (p + c.clip_in - c.timeline_in_with_transition)
              (scenario1_env.project c.sequence).frame_rate
              (scenario1_env.project (nested_sequence c)).frame_rate)
              (scenario1_env.project scenario1_params.seq).playhead)
    ∧ working_position scenario1_env scenario1_params = some (1, 30) :=
  working_position_nested scenario1_env scenario1_params (by decide)
    (by
      intro c hc
      simp only [scenario1_params, List.mem_singleton] at hc
      subst hc
      exact ⟨1, rfl⟩)

/-! ## Membership in the active-clip list -/

theorem scan_clips_current_clips_congr (env : Env) (video rendering : Bool) (playhead : Int)
    (clips : List (Option Clip)) (st1 st2 : ScanState)
    (h : st1.current_clips = st2.current_clips) :
    (scan_clips env video rendering playhead clips st1).current_clips
      = (scan_clips env video rendering playhead clips st2).current_clips := by
  induction clips generalizing st1 st2 with
  | nil => simpa [scan_clips] using h
  | cons oc cs ih =>
    simp only [scan_clips, List.foldl_cons]
    apply ih
    cases oc with
    | none => simpa [scan_clip] using h
    | some c => rw [scan_clip_current_clips, scan_clip_current_clips, h]

/-- The list the second loop of `compose_sequence` runs over is `active_clips`,
whatever the flag and the trace at the start of the first loop. -/
theorem scan_clips_current_clips (env : Env) (video rendering : Bool) (playhead : Int)
    (clips : List (Option Clip)) (count : Int) (texture_failed : Bool) (trace : List Event) :
    (scan_clips env video rendering playhead clips
        { current_clips := [], audio_track_count := count, texture_failed := texture_failed,
          trace := trace }).current_clips
      = active_clips env video rendering playhead clips :=
  scan_clips_current_clips_congr env video rendering playhead clips _ _ rfl

theorem mem_add_clip (video : Bool) (c y : Clip) (l : List Clip) :
    y ∈ add_clip video c l ↔ y = c ∨ y ∈ l := by
  cases video with
  | true => exact mem_add_clip_video c y l
  | false => simp [add_clip]; tauto

theorem mem_selected_clips (env : Env) (video : Bool) (playhead : Int)
    (clips : List (Option Clip)) (y : Clip) :
    y ∈ selected_clips env video playhead clips
      ↔ some y ∈ clips ∧ decide (y.track < 0) = video ∧ clip_is_active env playhead y = true := by
  induction clips with
  | nil => simp [selected_clips]
  | cons oc cs ih =>
    cases oc with
    | none => simp [selected_clips, ih]
    | some c =>
      simp only [selected_clips]
      split_ifs with h
      · simp only [List.mem_cons, ih, Option.some.injEq]
        constructor
        · rintro (rfl | h2)
          · exact ⟨Or.inl rfl, h⟩
          · exact ⟨Or.inr h2.1, h2.2⟩
        · rintro ⟨rfl | h2, h3⟩
          · exact Or.inl rfl
          · exact Or.inr ⟨h2, h3⟩
      · simp only [List.mem_cons, ih, Option.some.injEq]
        constructor
        · rintro h2
          exact ⟨Or.inr h2.1, h2.2⟩
        · rintro ⟨rfl | h2, h3⟩
          · exact absurd h3 h
          · exact ⟨h2, h3⟩

theorem mem_scan_clips (env : Env) (video rendering : Bool) (playhead : Int)
    (clips : List (Option Clip)) (st : ScanState) (y : Clip) :
    y ∈ (scan_clips env video rendering playhead clips st).current_clips
      ↔ y ∈ st.current_clips ∨ y ∈ selected_clips env video playhead clips := by
  induction clips generalizing st with
  | nil => simp [scan_clips, selected_clips]
  | cons oc cs ih =>
    cases oc with
    | none =>
      have := ih st
      simpa [scan_clips, scan_clip, selected_clips] using this
    | some c =>
      have h := ih (scan_clip env video rendering playhead st (some c))
      simp only [scan_clips, List.foldl_cons] at h ⊢
      rw [h, scan_clip_current_clips]
      simp only [selected_clips]
      split_ifs with hsel
      · simp only [mem_add_clip, List.mem_cons]; tauto
      · rfl

theorem clip_is_active_imp (env : Env) (playhead : Int) (c : Clip)
    (h : clip_is_active env playhead c = true) : env.is_clip_active c playhead = true := by
  unfold clip_is_active at h
  split at h
  · simp only [Bool.and_eq_true] at h
    exact h.2.2
  · exact h

/-- C4: with the activity test of the spec, a clip whose interval
`[timeline_in_with_transition, timeline_out_with_transition)` does not hold
the working playhead is not in the active-clip list, in the video pass and in
the audio pass, whatever its media. -/
theorem inactive_clip_excluded (env : Env) (video rendering : Bool) (playhead : Int)
    (clips : List (Option Clip)) (c : Clip)
    (hout : playhead < c.timeline_in_with_transition
      ∨ c.timeline_out_with_transition ≤ playhead) :
    c ∉ active_clips (with_spec_activity env) video rendering playhead clips := by
  intro hmem
  unfold active_clips at hmem
  rw [mem_scan_clips] at hmem
  rcases hmem with hmem | hmem
  · simp [scan_init] at hmem
  · have h := clip_is_active_imp _ _ _ ((mem_selected_clips _ _ _ _ _).mp hmem).2.2
    simp only [with_spec_activity, is_clip_active_spec, decide_eq_true_eq] at h
    omega

/-- Witness of C4: the sample clip, which ends at frame 100, at playhead 100. -/
theorem inactive_clip_excluded_witness :
    sample_clip ∉ active_clips (with_spec_activity sample_env) true false 100 [some sample_clip] :=
  inactive_clip_excluded sample_env true false 100 [some sample_clip] sample_clip
    (Or.inr (by decide))

/-! ## Scenario 3 -/

/-- Counterexample to C5 as stated: two clips on tracks 0 and 1, both active
at playhead 5, are audio clips; the video pass lists neither. -/
theorem scenario3_tracks_0_1_not_listed :
    clip_is_active sample_env 5 scenario3_track0 = true
    ∧ clip_is_active sample_env 5 scenario3_track1 = true
    ∧ active_clips sample_env true false 5 [some scenario3_track0, some scenario3_track1] = []
    ∧ active_clips sample_env true false 5 [some scenario3_track0, some scenario3_track1]
        ≠ [scenario3_track1, scenario3_track0] := by
  decide

/-- C5 amended: for two video clips, on tracks -1 and -2, both active at
playhead 5, the active-clip list of the video pass is the track -1 clip
followed by the track -2 clip, in whichever order the clip list holds them. -/
theorem scenario3_video_tracks (env : Env) (rendering : Bool) (a b : Clip)
    (ha : a.track = -1) (hb : b.track = -2)
    (hact_a : clip_is_active env 5 a = true) (hact_b : clip_is_active env 5 b = true) :
    active_clips env true rendering 5 [some a, some b] = [a, b]
    ∧ active_clips env true rendering 5 [some b, some a] = [a, b] := by
  constructor
  · simp [active_clips, scan_clips, scan_clip_current_clips, scan_init, ha, hb, hact_a, hact_b,
      add_clip_video_nil, add_clip_video_cons]
  · simp [active_clips, scan_clips, scan_clip_current_clips, scan_init, ha, hb, hact_a, hact_b,
      add_clip_video_nil, add_clip_video_cons]

/-- Witness of C5 amended: the sample clip on track -1 and its copy on track -2. -/
theorem scenario3_video_tracks_witness :
    active_clips sample_env true false 5 [some sample_clip, some scenario3_lower]
        = [sample_clip, scenario3_lower]
    ∧ active_clips sample_env true false 5 [some scenario3_lower, some sample_clip]
        = [sample_clip, scenario3_lower] :=
  scenario3_video_tracks sample_env false sample_clip scenario3_lower rfl rfl rfl rfl

/-! ## Transitions and auto-scale in the drawing of a clip -/

theorem filterMap_emit {α : Type} (f : Event → Option α) (st : EffectState) (ev : Event)
    (h : f ev = none) :
    (st.emit ev).trace.filterMap f = st.trace.filterMap f := by
  simp [EffectState.emit, List.filterMap_append, h]

theorem filterMap_shader_stage {α : Type} (f : Event → Option α)
    (hf : ∀ ev, effect_event ev = true → f ev = none) (fbo : FboPair) (e : Effect)
    (timecode : ℚ) (st : EffectState) :
    (shader_stage fbo e timecode st).trace.filterMap f = st.trace.filterMap f := by
  simp [shader_stage, draw_clip, EffectState.emit, List.filterMap_append,
    hf (Event.process_shader e timecode) rfl, hf (Event.draw_clip _ _ _ _) rfl]

theorem filterMap_superimpose_stage {α : Type} (f : Event → Option α)
    (hf : ∀ ev, effect_event ev = true → f ev = none) (env : Env) (fbo : FboPair) (e : Effect)
    (timecode : ℚ) (st : EffectState) :
    (superimpose_stage env fbo e timecode st).trace.filterMap f = st.trace.filterMap f := by
  unfold superimpose_stage
  dsimp only
  split_ifs <;>
    simp [draw_clip, List.filterMap_append, hf (Event.draw_clip _ _ _ _) rfl]

theorem filterMap_process_effect {α : Type} (f : Event → Option α)
    (hf : ∀ ev, effect_event ev = true → f ev = none) (env : Env) (fbo : FboPair) (e : Effect)
    (timecode : ℚ) (data : TransitionArg) (st : EffectState) :
    (process_effect env fbo e timecode data st).trace.filterMap f = st.trace.filterMap f := by
  unfold process_effect
  dsimp only
  split_ifs <;>
    simp only [filterMap_emit f _ _ (hf (Event.endEffect e) rfl),
      filterMap_superimpose_stage f hf, filterMap_shader_stage f hf,
      filterMap_emit f _ _ (hf (Event.startEffect e) rfl),
      filterMap_emit f _ _ (hf (Event.process_coords e timecode data) rfl)]

theorem filterMap_process_effects {α : Type} (f : Event → Option α)
    (hf : ∀ ev, effect_event ev = true → f ev = none)
    (hcall : ∀ e tc, f (Event.process_effect e tc TransitionArg.TA_NO_TRANSITION) = none)
    (env : Env) (fbo : FboPair) (timecode : ℚ) (es : List Effect) (st : EffectState) :
    (process_effects env fbo timecode es st).trace.filterMap f = st.trace.filterMap f := by
  induction es generalizing st with
  | nil => simp [process_effects]
  | cons e es ih =>
    simp only [process_effects]
    rw [ih, filterMap_process_effect f hf, filterMap_emit f _ _ (hcall e timecode)]

theorem filterMap_closing_stage {α : Type} (f : Event → Option α)
    (hf : ∀ ev, effect_event ev = true → f ev = none)
    (hcall : ∀ e tc, f (Event.process_effect e tc TransitionArg.TA_CLOSING_TRANSITION) = none)
    (env : Env) (fbo : FboPair) (playhead : Int) (c : Clip) (st : EffectState) :
    (closing_stage env fbo playhead c st).trace.filterMap f = st.trace.filterMap f := by
  unfold closing_stage
  split
  · rfl
  · dsimp only
    split_ifs
    · rw [filterMap_process_effect f hf, filterMap_emit f _ _ (hcall _ _)]
    · rfl

theorem filterMap_opening_stage {α : Type} (f : Event → Option α)
    (hf : ∀ ev, effect_event ev = true → f ev = none)
    (hcall : ∀ e tc, f (Event.process_effect e tc TransitionArg.TA_OPENING_TRANSITION) = none)
    (env : Env) (fbo : FboPair) (playhead : Int) (c : Clip) (st : EffectState) :
    (opening_stage env fbo playhead c st).trace.filterMap f = st.trace.filterMap f := by
  unfold opening_stage
  split
  · rfl
  · dsimp only
    split_ifs
    · rw [filterMap_process_effect f hf, filterMap_emit f _ _ (hcall _ _)]
    · rfl

theorem scale_call_effect_event (ev : Event) (h : effect_event ev = true) :
    scale_call ev = none := by
  cases ev <;> simp_all [effect_event, scale_call]

/-- C7, the code at the failing input: sequence 0 holds two active footage
clips, the first of the active-clip list having the texture id 0; the call
returns 0 right after `get_clip_frame` on that clip, and the trace holds no
event for the clip that follows it. -/
theorem zero_texture_returns_from_compose_sequence :
    active_clips failed_texture_env true false 5
        [some failed_texture_clip, some good_texture_clip]
      = [failed_texture_clip, good_texture_clip]
    ∧ compose_sequence failed_texture_env 1 sample_state
      = some (0, { params := sample_state.params,
                   trace := [Event.get_clip_frame failed_texture_clip 5] }) := by
  decide

theorem process_effect_texture_failed_mono (env : Env) (fbo : FboPair) (e : Effect)
    (timecode : ℚ) (data : TransitionArg) (st : EffectState) (h : st.texture_failed = true) :
    (process_effect env fbo e timecode data st).texture_failed = true := by
  unfold process_effect superimpose_stage shader_stage
  dsimp only
  split_ifs <;> simp [EffectState.emit, h]

theorem process_effects_texture_failed_mono (env : Env) (fbo : FboPair) (timecode : ℚ)
    (es : List Effect) (st : EffectState) (h : st.texture_failed = true) :
    (process_effects env fbo timecode es st).texture_failed = true := by
  induction es generalizing st with
  | nil => simpa [process_effects] using h
  | cons e es ih =>
    simp only [process_effects]
    exact ih _ (process_effect_texture_failed_mono _ _ _ _ _ _ (by simpa [EffectState.emit] using h))

theorem opening_stage_texture_failed_mono (env : Env) (fbo : FboPair) (playhead : Int)
    (c : Clip) (st : EffectState) (h : st.texture_failed = true) :
    (opening_stage env fbo playhead c st).texture_failed = true := by
  unfold opening_stage
  split
  · exact h
  · dsimp only
    split_ifs
    · exact process_effect_texture_failed_mono _ _ _ _ _ _ (by simpa [EffectState.emit] using h)
    · exact h

theorem closing_stage_texture_failed_mono (env : Env) (fbo : FboPair) (playhead : Int)
    (c : Clip) (st : EffectState) (h : st.texture_failed = true) :
    (closing_stage env fbo playhead c st).texture_failed = true := by
  unfold closing_stage
  split
  · exact h
  · dsimp only
    split_ifs
    · exact process_effect_texture_failed_mono _ _ _ _ _ _ (by simpa [EffectState.emit] using h)
    · exact h

theorem process_effect_superimpose_failed (env : Env) (fbo : FboPair) (e : Effect)
    (timecode : ℚ) (data : TransitionArg) (st : EffectState)
    (hen : e.is_enabled = true) (hsup : e.enable_superimpose = true)
    (hzero : env.process_superimpose e timecode = 0) :
    (process_effect env fbo e timecode data st).texture_failed = true := by
  unfold process_effect superimpose_stage
  simp [hen, hsup, hzero, EffectState.emit]

theorem process_effects_superimpose_failed (env : Env) (fbo : FboPair) (timecode : ℚ)
    (es : List Effect) (e : Effect) (he : e ∈ es) (hen : e.is_enabled = true)
    (hsup : e.enable_superimpose = true) (hzero : env.process_superimpose e timecode = 0)
    (st : EffectState) :
    (process_effects env fbo timecode es st).texture_failed = true := by
  induction es generalizing st with
  | nil => cases he
  | cons x xs ih =>
    simp only [process_effects]
    rcases List.mem_cons.mp he with rfl | hmem
    · exact process_effects_texture_failed_mono _ _ _ _ _
        (process_effect_superimpose_failed _ _ _ _ _ _ hen hsup hzero)
    · exact ih hmem _

/-- Counterexample to C8 as stated: an enabled effect with a linked shader and
a superimpose stage that yields texture 0, run with shader support on and no
prior source texture, raises the flag but leaves the composite texture at the
texture of `fbo[0]`, not at 0. -/
theorem superimpose_failure_after_shader_changes_texture :
    shader_superimpose_effect.is_enabled = true
    ∧ shader_superimpose_effect.enable_superimpose = true
    ∧ sample_env.process_superimpose shader_superimpose_effect 0 = 0
    ∧ (process_effect sample_env sample_fbo shader_superimpose_effect 0
        TransitionArg.TA_NO_TRANSITION (effect_init 0 false false)).texture_failed = true
    ∧ (process_effect sample_env sample_fbo shader_superimpose_effect 0
        TransitionArg.TA_NO_TRANSITION (effect_init 0 false false)).composite_texture = 11 := by
  decide

/-- C8 amended: for an enabled superimpose-capable effect that runs no shader
stage (not shader-capable, shader support off, or not linked) and whose
`process_superimpose` yields texture 0, `process_effect` raises the flag and
leaves the composite texture and the toggle as they were, so a composite
texture of 0 stays 0; and when a drawn null-media video clip carries such an
effect, its iteration of the second loop ends with the flag raised and the
loop goes on with the remaining clips. -/
theorem superimpose_failure_is_retry (env : Env) (fbo : FboPair) (e : Effect) (timecode : ℚ)
    (data : TransitionArg) (st : EffectState)
    (hen : e.is_enabled = true) (hsup : e.enable_superimpose = true)
    (hzero : env.process_superimpose e timecode = 0)
    (hns : (e.enable_shader && env.shaders_are_enabled && e.is_glsl_linked) = false) :
    ((process_effect env fbo e timecode data st).texture_failed = true
      ∧ (process_effect env fbo e timecode data st).composite_texture = st.composite_texture
      ∧ (process_effect env fbo e timecode data st).fbo_switcher = st.fbo_switcher
      ∧ (st.composite_texture = 0 →
          (process_effect env fbo e timecode data st).composite_texture = 0))
    ∧ ∀ (recur : RenderState → Option (Nat × RenderState)) (s : Sequence) (playhead : Int)
        (final_fbo : Nat) (c : Clip) (cs : List Clip) (rs : RenderState),
        c.track < 0 → c.media = none → c.timeline_in_with_transition ≤ playhead →
        e ∈ c.effects → timecode = env.get_timecode c playhead →
        ∃ rs1, process_clip recur env s playhead final_fbo c rs = some (Flow.next, rs1)
          ∧ rs1.params.texture_failed = true
          ∧ process_clips recur env s playhead final_fbo (c :: cs) rs
              = process_clips recur env s playhead final_fbo cs rs1 := by
  constructor
  · have hc : (process_effect env fbo e timecode data st).composite_texture
          = st.composite_texture
        ∧ (process_effect env fbo e timecode data st).fbo_switcher = st.fbo_switcher := by
      unfold process_effect superimpose_stage
      simp only [hen, hsup, hzero, if_true, Bool.or_true]
      rw [hns]
      by_cases hco : e.enable_coords = true <;> simp [hco, EffectState.emit]
    exact ⟨process_effect_superimpose_failed env fbo e timecode data st hen hsup hzero,
      hc.1, hc.2, fun h0 => hc.1.trans h0⟩
  · intro recur s playhead final_fbo c cs rs htrack hmedia hin hmem htc
    subst htc
    have hstep : process_clip recur env s playhead final_fbo c rs
        = some (Flow.next, draw_stage env s playhead final_fbo c
            (match c.fbo with
              | some f => f
              | none => env.new_fbo c) 0 false
            (if c.fbo = none then rs.emit (Event.alloc_fbo c) else rs)) := by
      simp [process_clip, draw_video_clip, footage_texture, to_sequence, hmedia, htrack, hin]
    refine ⟨_, hstep, ?_, ?_⟩
    · simp only [draw_stage]
      exact closing_stage_texture_failed_mono _ _ _ _ _
        (opening_stage_texture_failed_mono _ _ _ _ _
          (process_effects_superimpose_failed _ _ _ _ e hmem hen hsup hzero _))
    · simp only [process_clips, hstep]

/-- Witness of C8 amended: the superimpose-only effect on the sample clip at
playhead 5. -/
theorem superimpose_failure_is_retry_witness :
    ((process_effect sample_env sample_fbo superimpose_effect 0 TransitionArg.TA_NO_TRANSITION
        (effect_init 0 false false)).texture_failed = true
      ∧ (process_effect sample_env sample_fbo superimpose_effect 0 TransitionArg.TA_NO_TRANSITION
        (effect_init 0 false false)).composite_texture = 0)
    ∧ ∃ rs1, process_clip (compose_sequence sample_env 0) sample_env sample_sequence 5 0
          superimpose_clip sample_state = some (Flow.next, rs1)
        ∧ rs1.params.texture_failed = true
        ∧ process_clips (compose_sequence sample_env 0) sample_env sample_sequence 5 0
            [superimpose_clip, sample_clip] sample_state
          = process_clips (compose_sequence sample_env 0) sample_env sample_sequence 5 0
            [sample_clip] rs1 :=
  have h := superimpose_failure_is_retry sample_env sample_fbo superimpose_effect 0
    TransitionArg.TA_NO_TRANSITION (effect_init 0 false false) rfl rfl rfl rfl
  ⟨⟨h.1.1, h.1.2.1⟩,
    h.2 (compose_sequence sample_env 0) sample_sequence 5 0 superimpose_clip [sample_clip]
      sample_state (by decide) rfl (by decide) (by decide) rfl⟩

/-! ## Auto-scale -/

theorem scale_calls_draw_stage (env : Env) (s : Sequence) (playhead : Int) (final_fbo : Nat)
    (c : Clip) (fbo : FboPair) (textureID : Nat) (fbo_switcher : Bool) (rs : RenderState) :
    scale_calls (draw_stage env s playhead final_fbo c fbo textureID fbo_switcher rs).trace
      = scale_calls rs.trace ++ scale_calls (autoscale_events s c) := by
  unfold draw_stage
  simp only [scale_calls, List.filterMap_append]
  rw [filterMap_closing_stage scale_call scale_call_effect_event (fun _ _ => rfl),
    filterMap_opening_stage scale_call scale_call_effect_event (fun _ _ => rfl),
    filterMap_process_effects scale_call scale_call_effect_event (fun _ _ => rfl)]
  simp [List.filterMap_append, scale_call]

/-- Counterexample to C10 as stated: a 3840 by 1080 clip with auto-scale on,
drawn in a 1920 by 1080 sequence, differs from the sequence in resolution and
the minimum of the two ratios is 1/2, yet no scale is applied. -/
theorem autoscale_skipped_when_height_matches :
    wide_clip.autoscale = true
    ∧ (wide_clip.width, wide_clip.height) ≠ (sample_sequence.width, sample_sequence.height)
    ∧ min ((sample_sequence.width : ℚ) / (wide_clip.width : ℚ))
        ((sample_sequence.height : ℚ) / (wide_clip.height : ℚ)) = 1 / 2
    ∧ scale_calls (draw_stage sample_env sample_sequence 5 0 wide_clip sample_fbo 0 false
        sample_state).trace = [] := by
  refine ⟨rfl, by decide, ?_, ?_⟩
  · simp [sample_sequence, wide_clip, sample_clip]
    norm_num
  · rw [scale_calls_draw_stage]
    simp [scale_calls, sample_state, autoscale_events, sample_sequence, wide_clip, sample_clip]

/-- C10 amended: when a video clip is drawn, `glScalef` is called once, with
the minimum of `sequence.width / clip.width` and `sequence.height / clip.height`
as both factors, if auto-scale is on and the width and the height of the clip
both differ from those of the working sequence; it is not called when
auto-scale is off, when the widths are equal or when the heights are equal. -/
theorem autoscale_when_both_dimensions_differ (env : Env) (s : Sequence) (playhead : Int)
    (final_fbo : Nat) (c : Clip) (fbo : FboPair) (textureID : Nat) (fbo_switcher : Bool)
    (rs : RenderState) :
    scale_calls (draw_stage env s playhead final_fbo c fbo textureID fbo_switcher rs).trace
      = scale_calls rs.trace ++
        (if c.autoscale = true ∧ c.width ≠ s.width ∧ c.height ≠ s.height then
          [(min ((s.width : ℚ) / (c.width : ℚ)) ((s.height : ℚ) / (c.height : ℚ)),
            min ((s.width : ℚ) / (c.width : ℚ)) ((s.height : ℚ) / (c.height : ℚ)))]
        else []) := by
  rw [scale_calls_draw_stage]
  congr 1
  unfold autoscale_events
  by_cases ha : c.autoscale = true <;> by_cases hw : c.width = s.width <;>
    by_cases hh : c.height = s.height <;> simp [ha, hw, hh, scale_calls, scale_call]

/-! ## The wake-up of the viewer -/

theorem clip_activation_inactive (env : Env) (rendering : Bool) (playhead : Int) (c : Clip)
    (st : ScanState) (h : clip_is_active env playhead c = false) :
    (clip_activation env rendering playhead c st).2.audio_track_count = st.audio_track_count := by
  have h1 := clip_activation_fst env rendering playhead c st
  rw [h] at h1
  revert h1
  unfold clip_activation
  split <;> split_ifs <;> simp [ScanState.emit]

theorem clip_activation_wake (env : Env) (rendering : Bool) (playhead : Int) (c : Clip)
    (st : ScanState) :
    (clip_activation env rendering playhead c st).2.trace.count Event.play_wake
      = st.trace.count Event.play_wake := by
  unfold clip_activation
  split <;> split_ifs <;> simp [ScanState.emit, List.count_append]

theorem scan_clips_nothing_selected (env : Env) (video rendering : Bool) (playhead : Int)
    (clips : List (Option Clip)) (st : ScanState)
    (h : selected_clips env video playhead clips = []) :
    (scan_clips env video rendering playhead clips st).current_clips = st.current_clips
    ∧ (scan_clips env video rendering playhead clips st).audio_track_count
        = st.audio_track_count
    ∧ (scan_clips env video rendering playhead clips st).trace.count Event.play_wake
        = st.trace.count Event.play_wake := by
  induction clips generalizing st with
  | nil => simp [scan_clips]
  | cons oc cs ih =>
    cases oc with
    | none =>
      have := ih st (by simpa [selected_clips] using h)
      simpa [scan_clips, scan_clip] using this
    | some c =>
      simp only [selected_clips] at h
      split_ifs at h with hsel
      have hrest := ih (scan_clip env video rendering playhead st (some c)) h
      simp only [scan_clips, List.foldl_cons] at hrest ⊢
      rw [hrest.1, hrest.2.1, hrest.2.2]
      have hcur := scan_clip_current_clips env video rendering playhead st c
      rw [if_neg hsel] at hcur
      refine ⟨hcur, ?_, ?_⟩
      · unfold scan_clip
        simp only [clip_activation_fst]
        by_cases hk : decide (c.track < 0) = video
        · have hact : clip_is_active env playhead c = false := by
            cases hc : clip_is_active env playhead c
            · rfl
            · exact absurd ⟨hk, hc⟩ hsel
          simp [hk, hact, clip_activation_inactive env rendering playhead c st hact]
        · simp [hk]
      · unfold scan_clip
        simp only [clip_activation_fst]
        by_cases hk : decide (c.track < 0) = video
        · by_cases hc : clip_is_active env playhead c = true
          · exact absurd ⟨hk, hc⟩ hsel
          · simp [hk, hc, clip_activation_wake]
        · simp [hk]

/-- C9: in the audio pass that `compose_audio` starts with a non-null viewer,
when no audio clip of the sequence is active at the playhead the call returns
and `play_wake` is called exactly once. -/
theorem play_wake_once_without_active_clip (env : Env) (fuel : Nat) (viewer : Nat) (seq : Nat)
    (render_audio : Bool) (playback_speed : Int)
    (hnone : ∀ c, some c ∈ (env.project seq).clips → 0 ≤ c.track →
      clip_is_active env (env.project seq).playhead c = false) :
    ∃ rs, compose_audio env (fuel + 1) (some viewer) seq render_audio playback_speed = some rs
      ∧ rs.trace.count Event.play_wake = 1 := by
  have hsel : selected_clips env false (env.project seq).playhead (env.project seq).clips = [] := by
    apply List.eq_nil_iff_forall_not_mem.mpr
    intro y hy
    obtain ⟨hmem, hkind, hact⟩ := (mem_selected_clips _ _ _ _ _).mp hy
    have htrack : 0 ≤ y.track := by
      simp only [decide_eq_false_iff_not, not_lt] at hkind
      exact hkind
    rw [hnone y hmem htrack] at hact
    cases hact
  obtain ⟨h1, h2, h3⟩ := scan_clips_nothing_selected env false env.audio_rendering
    (env.project seq).playhead (env.project seq).clips
    { current_clips := [], audio_track_count := 0, texture_failed := false, trace := [] } hsel
  simp only at h1 h2 h3
  simp only [compose_audio, compose_sequence, compose_sequence_body, working_position, nest_loop,
    bind_final_fbo, List.getLast?_nil, h1, h2, process_clips, Option.map]
  simp [RenderState.emit, List.count_append, h3]

/-- Witness of C9: a sequence whose only clip is a video clip. -/
theorem play_wake_once_without_active_clip_witness :
    ∃ rs, compose_audio silent_env 1 (some 0) 0 false 1 = some rs
      ∧ rs.trace.count Event.play_wake = 1 :=
  play_wake_once_without_active_clip silent_env 0 0 0 false 1
    (by
      intro c hc htrack
      simp only [silent_env, List.mem_cons, Option.some.injEq, List.mem_singleton,
        List.not_mem_nil, or_false, reduceCtorEq] at hc
      subst hc
      exact absurd htrack (by decide))

/-! ## Keyframe validation -/

theorem mem_validate_rows (e : Effect) (ts : ℚ) (rows : List Nat) (j0 j n k : Nat)
    (hj : rows[j]? = some n) (hk : k < n) :
    Event.validate_keyframe_data e (j0 + j) k ts ∈ validate_rows e ts j0 rows := by
  induction rows generalizing j0 j with
  | nil => simp at hj
  | cons m rest ih =>
    simp only [validate_rows, List.mem_append, List.mem_map, List.mem_range]
    cases j with
    | zero =>
      simp only [List.getElem?_cons_zero, Option.some.injEq] at hj
      subst hj
      exact Or.inl ⟨k, hk, rfl⟩
    | succ i =>
      simp only [List.getElem?_cons_succ] at hj
      have := ih (j0 + 1) i hj
      have hidx : j0 + 1 + i = j0 + (i + 1) := by omega
      rw [hidx] at this
      exact Or.inr this

theorem mem_validate_effects (ts : ℚ) (es : List Effect) (e : Effect) (he : e ∈ es)
    (j n k : Nat) (hj : e.rows[j]? = some n) (hk : k < n) :
    Event.validate_keyframe_data e j k ts ∈ validate_effects ts es := by
  induction es with
  | nil => cases he
  | cons x xs ih =>
    simp only [validate_effects, List.mem_append]
    rcases List.mem_cons.mp he with rfl | hmem
    · have := mem_validate_rows e ts e.rows 0 j n k hj hk
      rw [Nat.zero_add] at this
      exact Or.inl this
    · exact Or.inr (ih hmem)

/-- Counterexample to C11 as stated: in a video pass on sequence 0, whose
active-clip list is the keyframed video clip of that sequence (one effect, one
row, two fields), the call returns and its trace holds no call of
`validate_keyframe_data`. -/
theorem video_pass_validates_no_keyframes :
    keyframed_video_clip.sequence = sample_state.params.seq
    ∧ sample_state.params.video = true
    ∧ active_clips keyframed_env true false 5 [some keyframed_video_clip]
        = [keyframed_video_clip]
    ∧ keyframed_video_clip.effects = [keyframed_effect]
    ∧ keyframed_effect.rows = [2]
    ∧ (compose_sequence keyframed_env 1 sample_state).map (fun r => keyframe_calls r.2.trace)
        = some [] := by
  decide

theorem footage_texture_seq (env : Env) (playhead : Int) (c : Clip) (rs : RenderState) :
    (footage_texture env playhead c rs).2.params.seq = rs.params.seq := by
  unfold footage_texture
  split
  · dsimp only
    split_ifs <;> simp [RenderState.emit]
  · rfl

theorem draw_stage_seq (env : Env) (s : Sequence) (playhead : Int) (final_fbo : Nat) (c : Clip)
    (fbo : FboPair) (textureID : Nat) (fbo_switcher : Bool) (rs : RenderState) :
    (draw_stage env s playhead final_fbo c fbo textureID fbo_switcher rs).params.seq
      = rs.params.seq := by
  simp [draw_stage]

theorem draw_video_clip_seq (recur : RenderState → Option (Nat × RenderState))
    (hrec : ∀ rs r, recur rs = some r → r.2.params.seq = rs.params.seq) (env : Env)
    (s : Sequence) (playhead : Int) (final_fbo : Nat) (c : Clip) (rs : RenderState)
    (r : Flow × RenderState)
    (h : draw_video_clip recur env s playhead final_fbo c rs = some r) :
    r.2.params.seq = rs.params.seq := by
  have hft := footage_texture_seq env playhead c rs
  unfold draw_video_clip at h
  split at h
  · next rs1 heq =>
    rw [heq] at hft
    simp only [Option.some.injEq] at h
    subst h
    exact hft
  · next tex rs1 heq =>
    rw [heq] at hft
    simp only at hft
    have hrs2 : (if c.fbo = none then rs1.emit (Event.alloc_fbo c) else rs1).params.seq
        = rs.params.seq := by
      split_ifs <;> simpa [RenderState.emit] using hft
    dsimp only at h
    generalize (if c.fbo = none then rs1.emit (Event.alloc_fbo c) else rs1) = rs2 at h hrs2
    split_ifs at h
    · split at h
      · split at h
        · cases h
        · next v rs3 hrecur =>
          have h3 := hrec _ _ hrecur
          simp only [Option.some.injEq] at h
          subst h
          rw [draw_stage_seq]
          simpa using h3.trans hrs2
      · simp only [Option.some.injEq] at h
        subst h
        rw [draw_stage_seq]
        exact hrs2
    · simp only [Option.some.injEq] at h
      subst h
      exact hrs2

theorem cache_audio_clip_seq (recur : RenderState → Option (Nat × RenderState))
    (hrec : ∀ rs r, recur rs = some r → r.2.params.seq = rs.params.seq) (env : Env)
    (s : Sequence) (playhead : Int) (c : Clip) (rs : RenderState) (r : Flow × RenderState)
    (h : cache_audio_clip recur env s playhead c rs = some r) :
    r.2.params.seq = rs.params.seq := by
  unfold cache_audio_clip at h
  dsimp only at h
  split at h
  · cases h
  · next rs1 hafter =>
    have hrs1 : rs1.params.seq = rs.params.seq := by
      by_cases hcond : (rs.params.render_audio || (env.enable_audio_scrubbing && env.audio_scrub
          && decide ((env.project rs.params.seq).playhead > c.timeline_in))) = true
      · rw [if_pos hcond] at hafter
        cases hts : to_sequence c.media with
        | some sid =>
          rw [hts] at hafter
          dsimp only at hafter
          split at hafter
          · cases hafter
          · next v rs2 hrecur =>
            have h2 := hrec _ _ hrecur
            simp only [Option.some.injEq] at hafter
            subst hafter
            simpa using h2
        | none =>
          rw [hts] at hafter
          dsimp only at hafter
          by_cases hlock : env.try_lock c = true
          · rw [if_pos hlock] at hafter
            simp only [Option.some.injEq] at hafter
            subst hafter
            simp [RenderState.emit]
          · rw [if_neg hlock] at hafter
            simp only [Option.some.injEq] at hafter
            subst hafter
            rfl
      · rw [if_neg hcond] at hafter
        simp only [Option.some.injEq] at hafter
        subst hafter
        rfl
    split_ifs at h <;> (simp only [Option.some.injEq] at h; subst h; exact hrs1)

theorem process_clip_seq (recur : RenderState → Option (Nat × RenderState))
    (hrec : ∀ rs r, recur rs = some r → r.2.params.seq = rs.params.seq) (env : Env)
    (s : Sequence) (playhead : Int) (final_fbo : Nat) (c : Clip) (rs : RenderState)
    (r : Flow × RenderState)
    (h : process_clip recur env s playhead final_fbo c rs = some r) :
    r.2.params.seq = rs.params.seq := by
  unfold process_clip at h
  split_ifs at h
  · simp only [Option.some.injEq] at h
    subst h
    rfl
  · exact draw_video_clip_seq recur hrec env s playhead final_fbo c rs r h
  · exact cache_audio_clip_seq recur hrec env s playhead c rs r h

theorem process_clips_seq (recur : RenderState → Option (Nat × RenderState))
    (hrec : ∀ rs r, recur rs = some r → r.2.params.seq = rs.params.seq) (env : Env)
    (s : Sequence) (playhead : Int) (final_fbo : Nat) (cs : List Clip) (rs : RenderState)
    (r : Option Nat × RenderState)
    (h : process_clips recur env s playhead final_fbo cs rs = some r) :
    r.2.params.seq = rs.params.seq := by
  induction cs generalizing rs with
  | nil =>
    simp only [process_clips, Option.some.injEq] at h
    subst h
    rfl
  | cons c cs ih =>
    simp only [process_clips] at h
    split at h
    · cases h
    · next v rs1 hstep =>
      have h1 := process_clip_seq recur hrec env s playhead final_fbo c rs _ hstep
      simp only [Option.some.injEq] at h
      subst h
      exact h1
    · next rs1 hstep =>
      have h1 := process_clip_seq recur hrec env s playhead final_fbo c rs _ hstep
      exact (ih rs1 h).trans h1

theorem bind_final_fbo_seq (rs : RenderState) :
    (bind_final_fbo rs).2.params.seq = rs.params.seq := by
  unfold bind_final_fbo
  split
  · split <;> simp [RenderState.emit]
  · rfl

theorem compose_sequence_body_seq (recur : RenderState → Option (Nat × RenderState))
    (hrec : ∀ rs r, recur rs = some r → r.2.params.seq = rs.params.seq) (env : Env)
    (rs : RenderState) (r : Nat × RenderState)
    (h : compose_sequence_body recur env rs = some r) :
    r.2.params.seq = rs.params.seq := by
  unfold compose_sequence_body at h
  split at h
  · cases h
  · dsimp only at h
    have hb := bind_final_fbo_seq rs
    split at h
    · cases h
    · next v rs3 hloop =>
      have h3 := process_clips_seq recur hrec env _ _ _ _ _ _ hloop
      simp only [Option.some.injEq] at h
      subst h
      exact h3.trans hb
    · next rs3 hloop =>
      have h3 := process_clips_seq recur hrec env _ _ _ _ _ _ hloop
      simp only [Option.some.injEq] at h
      subst h
      split_ifs
      · simpa [RenderState.emit] using h3.trans hb
      · exact h3.trans hb

theorem compose_sequence_seq (env : Env) (fuel : Nat) (rs : RenderState) (r : Nat × RenderState)
    (h : compose_sequence env fuel rs = some r) : r.2.params.seq = rs.params.seq := by
  induction fuel generalizing rs r with
  | zero => simp [compose_sequence] at h
  | succ n ih =>
    simp only [compose_sequence] at h
    exact compose_sequence_body_seq (compose_sequence env n) (fun a b hab => ih a b hab) env rs r h

theorem cache_audio_clip_validates (recur : RenderState → Option (Nat × RenderState))
    (hrec : ∀ rs r, recur rs = some r → r.2.params.seq = rs.params.seq) (env : Env)
    (s : Sequence) (playhead : Int) (c : Clip) (rs : RenderState)
    (hseq : c.sequence = rs.params.seq)
    (hret : to_sequence c.media = none
      ∨ ∃ r, recur { rs with params := { rs.params with nests := rs.params.nests ++ [c] } }
          = some r) :
    ∃ rs1 pre, cache_audio_clip recur env s playhead c rs = some (Flow.next, rs1)
      ∧ rs1.trace = pre ++ validate_effects
          ((Int.cast (playhead - c.timeline_in_with_transition + c.clip_in_with_transition) : ℚ)
            / s.frame_rate) c.effects := by
  unfold cache_audio_clip
  dsimp only
  by_cases hcond : (rs.params.render_audio || (env.enable_audio_scrubbing && env.audio_scrub
      && decide ((env.project rs.params.seq).playhead > c.timeline_in))) = true
  · rw [if_pos hcond]
    cases hts : to_sequence c.media with
    | some sid =>
      rcases hret with h0 | ⟨r, hr⟩
      · rw [hts] at h0
        cases h0
      · have h2 := hrec _ _ hr
        simp only at h2
        simp only [hr, if_pos (hseq.trans h2.symm)]
        exact ⟨_, _, rfl, rfl⟩
    | none =>
      dsimp only
      by_cases hlock : env.try_lock c = true
      · simp only [if_pos hlock, RenderState.emit, if_pos hseq]
        exact ⟨_, _, rfl, rfl⟩
      · simp only [if_neg hlock, if_pos hseq]
        exact ⟨_, _, rfl, rfl⟩
  · simp only [if_neg hcond, if_pos hseq]
    exact ⟨_, _, rfl, rfl⟩

/-- C11 amended: for an active audio clip (track at least 0) that reaches the
audio branch of the second loop (it is not a footage clip that has not
finished opening) and belongs to the sequence being viewed, once the nested
call, if the clip nests a sequence, has returned, the iteration ends normally
and `validate_keyframe_data` has been called on every field of every row of
every effect of the clip with the timestamp
`(playhead - timeline_in_with_transition + clip_in_with_transition) / frame_rate`,
the frame rate being that of the working sequence. -/
theorem keyframes_validated_for_audio_clip (env : Env) (fuel : Nat) (s : Sequence)
    (playhead : Int) (final_fbo : Nat) (c : Clip) (rs : RenderState)
    (htrack : 0 ≤ c.track)
    (hopened : c.finished_opening = true ∨ ∀ m, c.media ≠ some (Media.footage m))
    (hseq : c.sequence = rs.params.seq)
    (hret : to_sequence c.media = none
      ∨ ∃ r, compose_sequence env fuel
          { rs with params := { rs.params with nests := rs.params.nests ++ [c] } } = some r) :
    ∃ rs1, process_clip (compose_sequence env fuel) env s playhead final_fbo c rs
        = some (Flow.next, rs1)
      ∧ ∀ e ∈ c.effects, ∀ j n k : Nat, e.rows[j]? = some n → k < n →
          Event.validate_keyframe_data e j k
            ((Int.cast (playhead - c.timeline_in_with_transition + c.clip_in_with_transition) : ℚ)
              / s.frame_rate) ∈ rs1.trace := by
  obtain ⟨rs1, pre, hstep, htrace⟩ := cache_audio_clip_validates (compose_sequence env fuel)
    (compose_sequence_seq env fuel) env s playhead c rs hseq hret
  refine ⟨rs1, ?_, ?_⟩
  · unfold process_clip
    have hskip : ((match c.media with
        | some (Media.footage _) => true
        | _ => false) && !c.finished_opening) = false := by
      rcases hopened with h | h
      · simp [h]
      · cases hm : c.media with
        | none => rfl
        | some m =>
          cases m with
          | footage f => exact absurd hm (h f)
          | sequence id => rfl
    rw [hskip]
    simp only [Bool.false_eq_true, if_false, not_lt.mpr htrack]
    exact hstep
  · intro e he j n k hj hk
    rw [htrace]
    exact List.mem_append_right _ (mem_validate_effects _ _ e he j n k hj hk)

/-- Witness of C11 amended: the keyframed audio clip of sequence 0 in an audio
pass on sequence 0, at playhead 5. -/
theorem keyframes_validated_for_audio_clip_witness :
    ∃ rs1, process_clip (compose_sequence sample_env 0) sample_env sample_sequence 5 0
          keyframed_audio_clip sample_audio_state = some (Flow.next, rs1)
      ∧ ∀ e ∈ keyframed_audio_clip.effects, ∀ j n k : Nat, e.rows[j]? = some n → k < n →
          Event.validate_keyframe_data e j k
            ((Int.cast (5 - keyframed_audio_clip.timeline_in_with_transition
                + keyframed_audio_clip.clip_in_with_transition) : ℚ)
              / sample_sequence.frame_rate) ∈ rs1.trace :=
  keyframes_validated_for_audio_clip sample_env 0 sample_sequence 5 0 keyframed_audio_clip
    sample_audio_state (by decide) (Or.inl rfl) rfl (Or.inl rfl)

end Olive
